import Mathlib

/-!
Verification development for `src/data_collection.py` of the
autonomous-affiliate-marketing-system repository: a single-shot ETL script
(DataCollector, DataLoader, etl_pipeline).

The Python program is shallowly embedded: each Python function becomes a
Lean function over an explicit `Config` (the configuration dictionary,
with `Option` fields standing for possibly-missing keys) and a `World`
(the behaviour of the external collaborators: the HTTP endpoint, the
BigQuery client constructor and the row-insert API).  Each embedded
function also returns the list of observable events it emits (log lines,
the issued HTTP request, the loader construction, the insert submission),
so that temporal claims about the pipeline driver can be stated over
traces.  All internal `try/except` handlers of the source are reflected
directly: the embedded functions are total and return sentinel values on
the source's exception paths.
-/

/-- JSON values, as produced by `response.json()` and consumed by
`pd.DataFrame` / `df.to_json` in the source. -/
inductive JsonVal where
  | str (s : String)
  | num (n : Int)
  | null
  | arr (l : List JsonVal)
  | obj (l : List (String × JsonVal))

/-- A record: one row of the in-memory tabular batch, a mapping from field
names to JSON values (one dictionary of the `items` array). -/
abbrev Record := List (String × JsonVal)

/-- Model of the pandas DataFrame built by `pd.DataFrame` applied to the items array:
the ordered list of records.  `df.empty` is `rows = []`, `len(df)` is
`rows.length`. -/
structure DataFrame where
  rows : List Record

/-- The configuration dictionary handed to `etl_pipeline`.  Each field is
one key the source looks up; `none` models a missing key, whose lookup
raises `KeyError` in Python. -/
structure Config where
  gaApiKey : Option String
  gaEndpoint : Option String
  startDate : Option String
  endDate : Option String
  gcpCredentials : Option String
  gcpProject : Option String
  dataset : Option String
deriving DecidableEq, Repr

/-- A `requests.Session`: only its header map is relevant to the source
(line 32 installs the Authorization header on it). -/
structure Session where
  headers : List (String × String)
deriving DecidableEq, Repr

/-- The HTTP GET request issued by `requests.get` at lines 44-50: URL,
query parameters, and the headers attached to the request. -/
structure GetRequest where
  url : String
  params : List (String × String)
  headers : List (String × String)
deriving DecidableEq, Repr

/-- Outcome of the single `requests.get` call, chosen by the external
world: the call raises (unreachable endpoint), or a response arrives with
a status code and a body; `body = none` models a body on which
`response.json()` raises. -/
inductive HttpResult where
  | connRaise
  | resp (status : Nat) (body : Option JsonVal)

/-- Outcome of the `insert_rows_json` submission call, chosen by the
external world: the call raises, or it completes and returns its
per-row error list (which the source discards at line 110). -/
inductive InsertOutcome where
  | insRaise
  | complete (errors : List String)
deriving DecidableEq, Repr

/-- Behaviour of the external collaborators during one run. -/
structure World where
  getResult : HttpResult
  bqInitOk : Bool
  insertOutcome : InsertOutcome

/-- Call-site component tags for log events (the source shares one logger;
the tag records which function emitted the line). -/
inductive Component where
  | collector
  | loader
  | driver
deriving DecidableEq, Repr

/-- Severity of a log line. -/
inductive Level where
  | info
  | error
deriving DecidableEq, Repr

/-- One submission to the warehouse: the dataset (from configuration), the
table name argument, and the items of the iterable handed to
`insert_rows_json` — the source hands it the string `df.to_json(...)`,
so the items are its characters (Python iterates a string as one-character
strings). -/
structure InsertCall where
  dataset : String
  tableName : String
  items : List JsonVal

/-- Observable events of a run: log lines, the issued HTTP GET, the
construction of the Loader (BigQuery client construction, line 66/77),
and the insert submission (line 110). -/
inductive Event where
  | log (c : Component) (lvl : Level) (msg : String)
  | httpGet (r : GetRequest)
  | initLoader
  | insertCall (c : InsertCall)

mutual
/-- Model of `df.to_json` / JSON serialization of a value (model scope:
string content is emitted verbatim, adequate for inputs free of characters
that need escaping). -/
def jsonStr : JsonVal → String
  | .str s => "\"" ++ s ++ "\""
  | .num n => toString n
  | .null => "null"
  | .arr l => "[" ++ jsonArr l ++ "]"
  | .obj l => "\x7b" ++ jsonObj l ++ "\x7d"

/-- Comma-separated serialization of an array's elements. -/
def jsonArr : List JsonVal → String
  | [] => ""
  | [v] => jsonStr v
  | v :: vs => jsonStr v ++ "," ++ jsonArr vs

/-- Comma-separated serialization of an object's fields. -/
def jsonObj : List (String × JsonVal) → String
  | [] => ""
  | [(k, v)] => "\"" ++ k ++ "\":" ++ jsonStr v
  | (k, v) :: kvs => "\"" ++ k ++ "\":" ++ jsonStr v ++ "," ++ jsonObj kvs
end

/-- Helper for the `pd.DataFrame(items)` model: turn a list of JSON objects
into records, failing on any non-object element. -/
def recordsOfItems : List JsonVal → Option (List Record)
  | [] => some []
  | .obj r :: vs => (recordsOfItems vs).map fun rs => r :: rs
  | _ :: _ => none

/-- Model of `pd.DataFrame(items)` at line 56 (model scope: `items` must be
a list of JSON objects, each becoming one row; any other shape is modelled
as the construction raising, which line 58 catches). -/
def dfOfItems (l : List JsonVal) : Option DataFrame :=
  (recordsOfItems l).map DataFrame.mk

/-- Looks a key up in a JSON value, as Python's `data["items"]` does: only
an object yields a value; anything else raises (modelled by `none`). -/
def getKey (v : JsonVal) (k : String) : Option JsonVal :=
  match v with
  | .obj l => (l.find? fun p => p.1 == k).map Prod.snd
  | _ => none

/-- Model of `DataCollector.initialize_google_analytics` (lines 24-36):
build a `requests.Session` and install the bearer Authorization header
drawn from `config["GA_API_KEY"]`.  A missing key raises `KeyError` inside
the `try`, which line 34 catches: one error is logged and `None` is
returned. -/
def initialize_google_analytics (config : Config) : Option Session × List Event :=
  match config.gaApiKey with
  | some key => (some ⟨[("Authorization", "Bearer " ++ key)]⟩, [])
  | none =>
    (none, [.log .collector .error "Failed to initialize Google Analytics client: KeyError"])

/-- Model of `DataCollector.collect_click_data` (lines 38-60): look up
endpoint and date range in the configuration (a missing key raises, caught
at line 58), issue one GET via the module-level `requests.get` — note the
request carries no session headers, since `self.analytics` is not used —
then: a raised request or a non-`ok` status (`response.ok` is
`status < 400` in requests) or a body that fails to parse or lacks a
well-formed `items` array each log one error and yield an empty DataFrame;
otherwise the DataFrame of the items is returned unchanged. -/
def collect_click_data (config : Config) (w : World) : DataFrame × List Event :=
  match config.gaEndpoint, config.startDate, config.endDate with
  | some url, some sd, some ed =>
    let req : GetRequest := ⟨url, [("start_date", sd), ("end_date", ed)], []⟩
    match w.getResult with
    | .connRaise =>
      (⟨[]⟩, [.httpGet req, .log .collector .error "Error collecting click data: ConnectionError"])
    | .resp status body =>
      if status < 400 then
        match body with
        | none =>
          (⟨[]⟩, [.httpGet req, .log .collector .error "Error collecting click data: JSONDecodeError"])
        | some data =>
          match getKey data "items" with
          | some (.arr items) =>
            match dfOfItems items with
            | some df => (df, [.httpGet req])
            | none =>
              (⟨[]⟩, [.httpGet req, .log .collector .error "Error collecting click data: DataFrame construction"])
          | _ =>
            (⟨[]⟩, [.httpGet req, .log .collector .error "Error collecting click data: KeyError items"])
      else
        (⟨[]⟩, [.httpGet req, .log .collector .error ("Failed to collect click data: " ++ toString status)])
  | _, _, _ =>
    (⟨[]⟩, [.log .collector .error "Error collecting click data: KeyError"])

/-- A BigQuery client handle (only the project identity is relevant). -/
structure BQClient where
  project : String
deriving DecidableEq, Repr

/-- The Loader: its configuration and the client handle acquired at
construction (lines 62-66). -/
structure DataLoader where
  config : Config
  bigquery_client : Option BQClient

/-- Model of `DataLoader.initialize_bigquery` (lines 68-80): build
credentials from `config["GCP_CREDENTIALS"]` and a client for
`config["GCP_PROJECT"]`; a missing key or a failing construction (the
choice made by the world) is caught at line 78, logging one error and returning
`None`. -/
def initialize_bigquery (config : Config) (w : World) : Option BQClient × List Event :=
  match config.gcpCredentials, config.gcpProject with
  | some _, some proj =>
    if w.bqInitOk then (some ⟨proj⟩, [])
    else (none, [.log .loader .error "Failed to initialize BigQuery client"])
  | _, _ => (none, [.log .loader .error "Failed to initialize BigQuery client: KeyError"])

/-- Model of `DataLoader.__init__` (lines 63-66): constructing a Loader
runs `initialize_bigquery`; the `initLoader` event marks that this
construction was invoked. -/
def DataLoader.make (config : Config) (w : World) : DataLoader × List Event :=
  let ini := initialize_bigquery config w
  (⟨config, ini.1⟩, .initLoader :: ini.2)

/-- The fixed four-column string schema of lines 95-100. -/
def bigquerySchema : List (String × String) :=
  [("timestamp", "STRING"), ("user_id", "STRING"),
   ("affiliate_id", "STRING"), ("click_source", "STRING")]

/-- Python iteration of a string: a sequence of one-character strings.
`insert_rows_json` iterates its `json_rows` argument, and the source hands
it the string `df.to_json` with records orientation. -/
def strItems (s : String) : List JsonVal :=
  s.toList.map fun c => .str (Char.toString c)

/-- Model of `DataLoader.load_data` (lines 82-114): report failure at once
when the client is absent (line 91, no log, no submission); look up
`config["DATASET"]` (a missing key raises, caught at line 112); serialize
the DataFrame to a JSON string (line 109) and hand that string to the
row-insert API (line 110), whose iterated items are therefore the string's
characters; return `True` whenever the submission call returns (its error
list is discarded), `False` with one logged error when it raises. -/
def load_data (loader : DataLoader) (w : World) (df : DataFrame) (tableName : String) :
    Bool × List Event × Option InsertCall :=
  match loader.bigquery_client with
  | none => (false, [], none)
  | some _ =>
    match loader.config.dataset with
    | none => (false, [.log .loader .error "Error loading data into BigQuery: KeyError DATASET"], none)
    | some ds =>
      let jsonData := jsonStr (.arr (df.rows.map .obj))
      let call : InsertCall := ⟨ds, tableName, strItems jsonData⟩
      match w.insertOutcome with
      | .insRaise =>
        (false, [.insertCall call, .log .loader .error "Error loading data into BigQuery"], some call)
      | .complete _ => (true, [.insertCall call], some call)

/-- The collection stage of `etl_pipeline` (lines 124-132): construct the
DataCollector (running `initialize_google_analytics`), stop when the
session is absent (the driver logs an error and returns — `none`),
otherwise run `collect_click_data`. -/
def collectorPhase (config : Config) (w : World) : Option DataFrame × List Event :=
  let ini := initialize_google_analytics config
  match ini.1 with
  | none => (none, ini.2 ++ [.log .driver .error "Google Analytics client failed to initialize"])
  | some _ =>
    let col := collect_click_data config w
    (some col.1, ini.2 ++ col.2)

/-- Model of `etl_pipeline` (lines 116-146): the five sequential
checkpoints, each an early exit; the first component of the result is
`Except.ok ()` when the function returns normally (returning `None`) and
would be `.error` for an exception propagated to the caller — every
branch of the body ends in `.ok`, mirroring the fact that each fault
source is caught either by a component's own handler or by the outer
handler at line 145. -/
def etl_pipeline (config : Config) (w : World) : Except String Unit × List Event :=
  let cp := collectorPhase config w
  match cp.1 with
  | none => (Except.ok (), cp.2)
  | some df =>
    if df.rows.isEmpty then
      (Except.ok (), cp.2 ++ [.log .driver .info "No click data collected"])
    else
      let lm := DataLoader.make config w
      match lm.1.bigquery_client with
      | none =>
        (Except.ok (), cp.2 ++ lm.2 ++ [.log .driver .error "BigQuery client failed to initialize"])
      | some _ =>
        let ld := load_data lm.1 w df "clicks_table"
        if ld.1 then
          (Except.ok (), cp.2 ++ lm.2 ++ ld.2.1 ++ [.log .driver .info "Successfully loaded rows into BigQuery"])
        else
          (Except.ok (), cp.2 ++ lm.2 ++ ld.2.1 ++ [.log .driver .error "Failed to load data into BigQuery"])

/-- A record has exactly the four string-typed fields of the Loader's
schema (timestamp, user_id, affiliate_id, click_source). -/
def schemaShape (r : Record) : Bool :=
  r.length == 4 &&
    bigquerySchema.all fun f =>
      r.any fun p => p.1 == f.1 && (match p.2 with | .str _ => true | _ => false)

/-- The rows the destination table gains from a completed insert
submission under write-append: the submitted items that are row objects of
the schema shape; every other item is rejected row-by-row (reported only
through the error list that the source discards). -/
def rowsReceived (call : InsertCall) : Nat :=
  (call.items.filter fun v => match v with | .obj r => schemaShape r | _ => false).length

/-- Number of error-level log events emitted by Collector code in a trace. -/
def collectorErrorCount (trace : List Event) : Nat :=
  (trace.filter fun e => match e with | .log .collector .error _ => true | _ => false).length

/-- The rows of the collection stage's batch (no rows when the run stopped
at Collector initialization). -/
def collectedRows : Option DataFrame → List Record
  | none => []
  | some df => df.rows

/-- A configuration with every key present (the scenario of spec §8). -/
def cfgAll : Config :=
  ⟨some "k", some "https://x/clicks", some "2024-01-01", some "2024-01-02",
   some "cred", some "p", some "d"⟩

/-- The single valid click record of the spec §8 scenario. -/
def validRecord : Record :=
  [("timestamp", .str "t1"), ("user_id", .str "u1"),
   ("affiliate_id", .str "a1"), ("click_source", .str "web")]

/-- A world in which every collaborator works: HTTP 200 with one valid
item, the BigQuery client constructs, the insert completes without
row errors. -/
def worldGood : World :=
  ⟨.resp 200 (some (.obj [("items", .arr [.obj validRecord])])), true, .complete []⟩

/-- A configuration identical to `cfgAll` except that the API key is
missing. -/
def cfgNoKey : Config :=
  ⟨none, some "https://x/clicks", some "2024-01-01", some "2024-01-02",
   some "cred", some "p", some "d"⟩

/-- The GET request `collect_click_data` issues under `cfgAll`. -/
def reqGood : GetRequest :=
  ⟨"https://x/clicks", [("start_date", "2024-01-01"), ("end_date", "2024-01-02")], []⟩

/-- The insert submission issued for the one-record batch under `cfgAll`:
dataset d, table clicks_table, and — because the source hands the insert
API the serialized JSON text — items that are the characters of that
text. -/
def goodCall : InsertCall :=
  ⟨"d", "clicks_table", strItems (jsonStr (.arr [.obj validRecord]))⟩

/-- A world returning HTTP 304 — outside the 2xx range, yet `ok` for the
requests library, whose `ok` is status < 400 — with a one-item body. -/
def world304 : World :=
  ⟨.resp 304 (some (.obj [("items", .arr [.obj validRecord])])), true, .complete []⟩

/-- A world returning HTTP 500 with a one-item body. -/
def world500 : World :=
  ⟨.resp 500 (some (.obj [("items", .arr [.obj validRecord])])), true, .complete []⟩

/-- A world whose response has an empty items array. -/
def worldEmptyItems : World :=
  ⟨.resp 200 (some (.obj [("items", .arr [])])), true, .complete []⟩

/-- A world whose response carries a single item with one integer-typed
field — not four string fields. -/
def worldBadShape : World :=
  ⟨.resp 200 (some (.obj [("items", .arr [.obj [("foo", .num 1)]])])), true, .complete []⟩

/-- Event check used for the fixed-table-name property: an insert
submission event must target table name t; every other event passes. -/
def checkTable (t : String) : Event → Bool
  | .insertCall c => c.tableName == t
  | _ => true

/-- C5: for every configuration and every behaviour of the external
collaborators — including a raising GET, a failing client construction, a
raising insert and any missing configuration key — `etl_pipeline` returns
normally: no exception propagates to its caller, the function always
returns None. -/
theorem C5_pipeline_never_raises (config : Config) (w : World) :
    (etl_pipeline config w).1 = Except.ok () := by
  simp only [etl_pipeline]
  repeat' split
  all_goals rfl

/-- C6: when the destination client failed to construct (the loader client
handle is absent), `load_data` returns false immediately: no insert
submission is attempted (and nothing is logged). -/
theorem C6_load_data_no_client (loader : DataLoader) (w : World) (df : DataFrame)
    (t : String) (h : loader.bigquery_client = none) :
    load_data loader w df t = (false, [], none) := by
  unfold load_data
  rw [h]

theorem C6_witness :
    (⟨cfgAll, none⟩ : DataLoader).bigquery_client = none ∧
    load_data ⟨cfgAll, none⟩ worldGood ⟨[validRecord]⟩ "clicks_table" = (false, [], none) :=
  ⟨rfl, C6_load_data_no_client ⟨cfgAll, none⟩ worldGood ⟨[validRecord]⟩ "clicks_table" rfl⟩

/-- C10: with a client available and the dataset configured, `load_data`
reports success whenever the submission call completes without raising,
whatever per-row error list that call returns — the returned row-level
insert errors are discarded at line 110. -/
theorem C10_row_errors_ignored (loader : DataLoader) (w : World) (df : DataFrame)
    (t : String) (cl : BQClient) (ds : String) (errs : List String)
    (hc : loader.bigquery_client = some cl) (hd : loader.config.dataset = some ds)
    (hw : w.insertOutcome = .complete errs) :
    (load_data loader w df t).1 = true := by
  unfold load_data
  rw [hc, hd, hw]

theorem C10_witness :
    (⟨cfgAll, some ⟨"p"⟩⟩ : DataLoader).bigquery_client = some ⟨"p"⟩ ∧
    (⟨cfgAll, some ⟨"p"⟩⟩ : DataLoader).config.dataset = some "d" ∧
    (⟨HttpResult.resp 200 none, true, .complete ["row insert error"]⟩ : World).insertOutcome
      = .complete ["row insert error"] ∧
    (load_data ⟨cfgAll, some ⟨"p"⟩⟩ ⟨HttpResult.resp 200 none, true, .complete ["row insert error"]⟩
      ⟨[validRecord]⟩ "clicks_table").1 = true :=
  ⟨rfl, rfl, rfl,
    C10_row_errors_ignored ⟨cfgAll, some ⟨"p"⟩⟩
      ⟨HttpResult.resp 200 none, true, .complete ["row insert error"]⟩
      ⟨[validRecord]⟩ "clicks_table" ⟨"p"⟩ "d" ["row insert error"] rfl rfl rfl⟩

/-- The fetch trace never contains a Loader-construction event: only the
issued GET and log lines are observable from `collect_click_data`. -/
theorem collect_click_data_no_initLoader (config : Config) (w : World) :
    Event.initLoader ∉ (collect_click_data config w).2 := by
  unfold collect_click_data
  repeat' split
  all_goals simp

/-- C4: in every run whose fetched batch has size 0, the driver stops
before constructing a Loader: no Loader construction (BigQuery client
construction) event occurs anywhere in the run's trace. -/
theorem C4_empty_batch_no_loader (config : Config) (w : World)
    (h : (collect_click_data config w).1.rows = []) :
    Event.initLoader ∉ (etl_pipeline config w).2 := by
  intro hmem
  cases hk : config.gaApiKey with
  | none =>
    simp [etl_pipeline, collectorPhase, initialize_google_analytics, hk] at hmem
  | some k =>
    have hempty : (collect_click_data config w).1.rows.isEmpty = true := by
      rw [h]; rfl
    simp only [etl_pipeline, collectorPhase, initialize_google_analytics, hk, hempty,
      if_true, List.nil_append] at hmem
    rcases List.mem_append.mp hmem with hmem | hmem
    · exact collect_click_data_no_initLoader config w hmem
    · simp at hmem

theorem C4_witness :
    (collect_click_data cfgAll worldEmptyItems).1.rows = [] ∧
    Event.initLoader ∉ (etl_pipeline cfgAll worldEmptyItems).2 :=
  ⟨rfl, C4_empty_batch_no_loader cfgAll worldEmptyItems rfl⟩

/-- The initialization trace of the Collector holds no insert event. -/
theorem ga_init_all_check (config : Config) (t : String) :
    ((initialize_google_analytics config).2.all (checkTable t)) = true := by
  unfold initialize_google_analytics
  split
  all_goals rfl

/-- The fetch trace holds no insert event. -/
theorem collect_all_check (config : Config) (w : World) (t : String) :
    ((collect_click_data config w).2.all (checkTable t)) = true := by
  unfold collect_click_data
  repeat' split
  all_goals rfl

/-- The Loader construction trace holds no insert event. -/
theorem make_all_check (config : Config) (w : World) (t : String) :
    ((DataLoader.make config w).2.all (checkTable t)) = true := by
  unfold DataLoader.make initialize_bigquery
  repeat' split
  all_goals rfl

/-- Every insert event emitted by load_data targets the table name it was
given. -/
theorem load_all_check (loader : DataLoader) (w : World) (df : DataFrame) (t : String) :
    ((load_data loader w df t).2.1.all (checkTable t)) = true := by
  unfold load_data
  repeat' split
  all_goals simp [checkTable]

/-- Every event of every pipeline trace passes the fixed-table check:
insert submissions target clicks_table only. -/
theorem etl_trace_table_check (config : Config) (w : World) :
    ((etl_pipeline config w).2.all (checkTable "clicks_table")) = true := by
  unfold etl_pipeline collectorPhase
  cases hga : (initialize_google_analytics config).1 <;> simp only [hga]
  · simp [List.all_append, ga_init_all_check, checkTable]
  · repeat' split
    all_goals simp [List.all_append, ga_init_all_check, collect_all_check, make_all_check,
      load_all_check, checkTable]

/-- C9: every insert submission the pipeline driver issues goes to the
fixed table name clicks_table; no configuration parameter and no external
behaviour can change the destination table name of a run. -/
theorem C9_fixed_table_name (config : Config) (w : World) (c : InsertCall)
    (h : Event.insertCall c ∈ (etl_pipeline config w).2) :
    c.tableName = "clicks_table" := by
  have ha := etl_trace_table_check config w
  rw [List.all_eq_true] at ha
  simpa [checkTable] using ha _ h

theorem C9_witness :
    Event.insertCall goodCall ∈ (etl_pipeline cfgAll worldGood).2 ∧
    goodCall.tableName = "clicks_table" :=
  have hm : Event.insertCall goodCall ∈ (etl_pipeline cfgAll worldGood).2 :=
    List.Mem.tail _ (List.Mem.tail _ (List.Mem.head _))
  ⟨hm, C9_fixed_table_name cfgAll worldGood goodCall hm⟩

/-- C3 counterexample: HTTP status 304 lies outside the 2xx range, yet
`collect_click_data` under `world304` returns a batch of size 1, not 0 —
the source tests `response.ok`, which the requests library defines as
status < 400, so redirection-class responses that are not followed (such
as 304 Not Modified) proceed to body parsing. -/
theorem C3_counterexample :
    ¬ (200 ≤ 304 ∧ 304 < 300) ∧
    (collect_click_data cfgAll world304).1.rows.length = 1 :=
  ⟨by decide, rfl⟩

/-- C3 amended: for every response whose status code is at least 400
(`response.ok` false), `collect_click_data` returns an empty batch
regardless of the response body content. -/
theorem C3_not_ok_empty_batch (config : Config) (w : World) (s : Nat) (b : Option JsonVal)
    (hw : w.getResult = .resp s b) (hs : 400 ≤ s) :
    (collect_click_data config w).1.rows.length = 0 := by
  unfold collect_click_data
  cases he : config.gaEndpoint <;> cases hsd : config.startDate <;> cases hed : config.endDate <;>
    simp only [he, hsd, hed, hw]
  all_goals try rfl
  rw [if_neg (Nat.not_lt.mpr hs)]
  rfl

theorem C3_witness :
    world500.getResult = .resp 500 (some (.obj [("items", .arr [.obj validRecord])])) ∧
    400 ≤ 500 ∧
    (collect_click_data cfgAll world500).1.rows.length = 0 :=
  ⟨rfl, by decide,
    C3_not_ok_empty_batch cfgAll world500 500 (some (.obj [("items", .arr [.obj validRecord])]))
      rfl (by decide)⟩

/-- C2 (code bug): the session built at initialization does carry the
bearer Authorization header drawn from the API key, but the GET issued by
`collect_click_data` is made through the module-level `requests.get`, not
through that session — so every request recorded in the fetch trace
carries an empty header map, with no Authorization entry. -/
theorem C2_get_lacks_bearer_header (config : Config) (w : World) (k : String) (r : GetRequest)
    (hk : config.gaApiKey = some k)
    (hr : Event.httpGet r ∈ (collect_click_data config w).2) :
    (initialize_google_analytics config).1 = some ⟨[("Authorization", "Bearer " ++ k)]⟩ ∧
    r.headers = [] := by
  constructor
  · unfold initialize_google_analytics
    rw [hk]
  · unfold collect_click_data at hr
    cases he : config.gaEndpoint <;> cases hsd : config.startDate <;> cases hed : config.endDate <;>
      simp only [he, hsd, hed] at hr
    all_goals try (simp at hr)
    repeat' split at hr
    all_goals simp at hr
    all_goals simp [hr]

theorem C2_witness :
    cfgAll.gaApiKey = some "k" ∧
    Event.httpGet reqGood ∈ (collect_click_data cfgAll worldGood).2 ∧
    (initialize_google_analytics cfgAll).1 = some ⟨[("Authorization", "Bearer " ++ "k")]⟩ ∧
    reqGood.headers = [] :=
  have hm : Event.httpGet reqGood ∈ (collect_click_data cfgAll worldGood).2 :=
    List.Mem.head _
  ⟨rfl, hm, C2_get_lacks_bearer_header cfgAll worldGood "k" reqGood rfl hm⟩

/-- C7: for every configuration missing the API key, and for every world
in which the endpoint is unreachable (the GET raises), the collection
stage of the run yields an empty batch and the Collector logs exactly one
error; no exception escapes the component — each embedded collector
function is total, every fault path ending in a logged sentinel return. -/
theorem C7_collector_failure_contained (config : Config) (w : World)
    (h : config.gaApiKey = none ∨ w.getResult = .connRaise) :
    collectedRows (collectorPhase config w).1 = [] ∧
    collectorErrorCount (collectorPhase config w).2 = 1 := by
  rcases h with hk | hw
  · simp [collectorPhase, initialize_google_analytics, hk, collectedRows, collectorErrorCount]
  · cases hk : config.gaApiKey with
    | none =>
      simp [collectorPhase, initialize_google_analytics, hk, collectedRows, collectorErrorCount]
    | some k =>
      cases he : config.gaEndpoint <;> cases hsd : config.startDate <;> cases hed : config.endDate <;>
        simp [collectorPhase, initialize_google_analytics, collect_click_data, hk, hw, he, hsd,
          hed, collectedRows, collectorErrorCount]

theorem C7_witness :
    (cfgNoKey.gaApiKey = none ∨ worldGood.getResult = .connRaise) ∧
    collectedRows (collectorPhase cfgNoKey worldGood).1 = [] ∧
    collectorErrorCount (collectorPhase cfgNoKey worldGood).2 = 1 :=
  ⟨Or.inl rfl, C7_collector_failure_contained cfgNoKey worldGood (Or.inl rfl)⟩

/-- C8 counterexample: the Collector validates nothing: with a response
item that has a single integer-typed field, the batch handed onward is
that very record — it violates the four-string-field schema shape — and
the run still constructs the Loader and submits, so an invalid batch does
reach the Loader. -/
theorem C8_counterexample :
    (collectorPhase cfgAll worldBadShape).1 = some ⟨[[("foo", .num 1)]]⟩ ∧
    schemaShape [("foo", .num 1)] = false ∧
    Event.initLoader ∈ (etl_pipeline cfgAll worldBadShape).2 :=
  ⟨rfl, rfl, List.Mem.tail _ (List.Mem.head _)⟩

/-- Turning a list of objects back into records recovers the records. -/
theorem recordsOfItems_map_obj (rs : List Record) :
    recordsOfItems (rs.map JsonVal.obj) = some rs := by
  induction rs with
  | nil => rfl
  | cons r rest ih => simp [recordsOfItems, ih]

/-- C8 amended: the batch handed from Collector to Loader is exactly the
record sequence of the response items array, unvalidated — so it
satisfies the four-string-field schema shape precisely when every fetched
item already does, and the code itself never establishes that shape. -/
theorem C8_batch_is_items_verbatim (config : Config) (w : World) (s : Nat) (rs : List Record)
    (u sd ed : String)
    (he : config.gaEndpoint = some u) (hsd : config.startDate = some sd)
    (hed : config.endDate = some ed)
    (hw : w.getResult = .resp s (some (.obj [("items", .arr (rs.map JsonVal.obj))])))
    (hok : s < 400) :
    (collect_click_data config w).1.rows = rs := by
  unfold collect_click_data
  simp only [he, hsd, hed, hw, if_pos hok, getKey]
  simp [dfOfItems, recordsOfItems_map_obj]

theorem C8_witness :
    cfgAll.gaEndpoint = some "https://x/clicks" ∧
    cfgAll.startDate = some "2024-01-01" ∧
    cfgAll.endDate = some "2024-01-02" ∧
    worldGood.getResult = .resp 200 (some (.obj [("items", .arr ([validRecord].map JsonVal.obj))])) ∧
    200 < 400 ∧
    (collect_click_data cfgAll worldGood).1.rows = [validRecord] :=
  ⟨rfl, rfl, rfl, rfl, by decide,
    C8_batch_is_items_verbatim cfgAll worldGood 200 [validRecord]
      "https://x/clicks" "2024-01-01" "2024-01-02" rfl rfl rfl rfl (by decide)⟩

/-- C1 (code bug): on the valid one-record batch, with a constructed
client and a completing submission, `load_data` returns true — yet the
iterable handed to the row-insert API is the serialized JSON text of the
batch, whose iterated items are the one-character strings of that text,
none of them a row object of the schema shape; under write-append the
destination therefore gains 0 rows, not the 1 row the batch contains. -/
theorem C1_destination_gains_no_rows :
    load_data ⟨cfgAll, some ⟨"p"⟩⟩ worldGood ⟨[validRecord]⟩ "clicks_table"
      = (true, [.insertCall goodCall], some goodCall) ∧
    rowsReceived goodCall = 0 ∧
    (⟨[validRecord]⟩ : DataFrame).rows.length = 1 :=
  ⟨rfl, rfl, rfl⟩
